import Mathlib

set_option maxRecDepth 100000

/-!
Verification of the request-processing pipeline of `src/app.py`
(Gaugehaus real-estate price prediction service).

Shallow embedding notes:
* Python floats that can be NaN (the `Price_per_sqm` column of
  `cleaned_data.csv`) are modelled as `Option ℚ`, with `none` standing for
  NaN / non-finite (`np.isnan x or not np.isfinite x` becomes `isNone`);
  infinities, which cannot arise from the division producing this column,
  are not distinguished from NaN.  All other numeric values are `ℚ`.
* Exceptions raised in the body of `predict` are the error side of
  `Except`.  fastapi/starlette `HTTPException` is a subclass of `Exception`
  (and not of `ValueError`), which the embedding mirrors with the
  `Exc.http` constructor; `str(e)` of an `HTTPException` is
  "{status_code}: {detail}" (starlette `HTTPException.__str__`).
* The trained model (`model.joblib`) and the SHAP explainer attached to it
  are opaque startup artifacts, not source files; they are modelled from
  the spec as a capability record (see `Model`).
* Side effects that no claim observes (matplotlib/PIL chart rendering, the
  file write under `static/`) are not modelled; the `uuid.uuid4()` string
  is passed to the pipeline as the explicit argument `uid`.
-/

namespace GhMl

/-- A pandas/numpy float value: `none` is NaN (non-finite). -/
abbrev PFloat := Option ℚ

/-- The request schema `RealEstateInput` of `app.py` (pydantic model). -/
structure RealEstateInput where
  city : String
  property_type : String
  furnished : String
  delivery_term : String
  bedrooms : Int
  bathrooms : Int
  area : ℚ
  level : Int
deriving DecidableEq

/-- One row of `cleaned_data.csv` restricted to the columns the endpoint
reads: the label-encoded `City` and the float `Price_per_sqm`. -/
structure Record where
  city : Int
  price_per_sqm : PFloat
deriving DecidableEq

/-- Modelled from the spec: the TrainedModel together with its SHAP
`TreeExplainer` — startup artifacts (`model.joblib` plus the external
`shap` library) that are absent from `src/`.  Per spec §9 it is a
capability `{predict(FeatureVector) → price, attribute(FeatureVector) →
per-feature values + baseline}`; `shap_local_accuracy` is SHAP's local
accuracy (the spec's §8 round-trip: baseline plus attributions equals the
prediction) and `shap_length` says the explainer returns one attribution
per input feature. -/
structure Model where
  predictRow : List ℚ → ℚ
  shapRow : List ℚ → List ℚ
  expectedValue : ℚ
  shap_local_accuracy : ∀ row : List ℚ, expectedValue + (shapRow row).sum = predictRow row
  shap_length : ∀ row : List ℚ, (shapRow row).length = row.length

/-- The process-wide read-only state loaded at startup: `label_encoders`
(field name to its `classes_` list, in stored order), `df_cleaned`, and the
model. -/
structure Env where
  label_encoders : List (String × List String)
  df_cleaned : List Record
  model : Model

/-- A Python exception escaping (or raised in) the body of `predict`:
an `HTTPException(status_code, detail)`, a `ValueError`, or any other
exception carrying a message. -/
inductive Exc where
  | http (status : Nat) (detail : String)
  | valueError (msg : String)
  | other (msg : String)
deriving DecidableEq

/-- Python `str(e)` for the exceptions of `Exc`; for `HTTPException` this
is starlette's "{status_code}: {detail}". -/
def excStr : Exc → String
  | .http s d => toString s ++ ": " ++ d
  | .valueError m => m
  | .other m => m

/-- The JSON body returned on success (lines 154-158 of `app.py`). -/
structure Response where
  predicted_price : ℚ
  image_url : String
  factors_description : String
deriving DecidableEq

/-- Lines 51-58: the numeric validation, in source order. -/
def validateNumeric (i : RealEstateInput) : Except Exc Unit :=
  if i.bedrooms < 0 then .error (.http 400 "Bedrooms must be non-negative")
  else if i.bathrooms < 0 then .error (.http 400 "Bathrooms must be non-negative")
  else if i.area ≤ 0 then .error (.http 400 "Area must be positive")
  else if i.level < 0 then .error (.http 400 "Level must be non-negative")
  else .ok ()

/-- Lines 68-77 for a single categorical field: missing encoder is a 500,
a value outside `classes_` is a 400 listing the valid options, otherwise
the integer code is `LabelEncoder.transform`, i.e. the index of the value
in the stored `classes_` list. -/
def encodeOne (env : Env) (col : String) (value : String) : Except Exc Int :=
  match env.label_encoders.lookup col with
  | none => .error (.http 500 ("LabelEncoder for " ++ col ++ " not found"))
  | some classes =>
    if value ∈ classes then .ok (classes.indexOf value : Int)
    else .error (.http 400 ("Invalid " ++ col ++ ": '" ++ value ++ "'. Valid options: " ++
      String.intercalate ", " classes))

/-- The four integer codes produced by the encoding loop. -/
structure Codes where
  city : Int
  type : Int
  furnished : Int
  delivery_term : Int
deriving DecidableEq

/-- Lines 61-77: the encoding loop over the `categorical_inputs` dict, in
its insertion order City, Type, Furnished, Delivery_Term. -/
def encodeInputs (env : Env) (i : RealEstateInput) : Except Exc Codes := do
  let c ← encodeOne env "City" i.city
  let t ← encodeOne env "Type" i.property_type
  let f ← encodeOne env "Furnished" i.furnished
  let d ← encodeOne env "Delivery_Term" i.delivery_term
  pure { city := c, type := t, furnished := f, delivery_term := d }

/-- pandas `Series.mean()` with its default `skipna=True`: the mean of the
non-NaN entries, NaN when there are none. -/
def pandasMean (xs : List PFloat) : PFloat :=
  if (xs.filterMap id).isEmpty then none
  else some ((xs.filterMap id).sum / ((xs.filterMap id).length : ℚ))

/-- Insertion into a sorted list of rationals (helper for the median). -/
def insertSorted (x : ℚ) : List ℚ → List ℚ
  | [] => [x]
  | y :: ys => if x ≤ y then x :: y :: ys else y :: insertSorted x ys

/-- Insertion sort on rationals (helper for the median). -/
def sortRat (xs : List ℚ) : List ℚ := xs.foldr insertSorted []

/-- pandas `Series.median()` with its default `skipna=True`: the middle of
the sorted non-NaN entries (the average of the two middles when their
count is even), NaN when there are none. -/
def pandasMedian (xs : List PFloat) : PFloat :=
  match sortRat (xs.filterMap id) with
  | [] => none
  | y :: ys =>
    let fs := y :: ys
    let n := fs.length
    if n % 2 = 1 then some (fs.getD (n / 2) 0)
    else some ((fs.getD (n / 2 - 1) 0 + fs.getD (n / 2) 0) / 2)

/-- Lines 80-97: the derived `Price_per_sqm` feature for the encoded city
code, as an `Except`.  (The valid-city list in the 400 message reads
`label_encoders['City'].classes_`, which is present whenever this point is
reached, since encoding the City field already looked it up.) -/
def computePps (env : Env) (i : RealEstateInput) (cityCode : Int) : Except Exc ℚ :=
  if (env.df_cleaned.filter fun r => r.city == cityCode).isEmpty then
    .error (.http 400 ("No data for city code " ++ toString cityCode ++ " (decoded: " ++
      i.city ++ "). Valid cities: " ++
      String.intercalate ", " ((env.label_encoders.lookup "City").getD [])))
  else
    match pandasMean ((env.df_cleaned.filter fun r => r.city == cityCode).map
        fun r => r.price_per_sqm) with
    | some m => .ok m
    | none =>
      match pandasMedian (env.df_cleaned.map fun r => r.price_per_sqm) with
      | some d => .ok d
      | none => .error (.http 500 "Cannot compute Price_per_sqm: invalid data in cleaned_data.csv")

/-- Lines 100-110: the single-row input DataFrame, in the insertion order
of the dict literal. -/
def buildRow (i : RealEstateInput) (c : Codes) (pps : ℚ) : List ℚ :=
  [(c.type : ℚ), (i.bedrooms : ℚ), (i.bathrooms : ℚ), i.area,
   (c.furnished : ℚ), (i.level : ℚ), (c.delivery_term : ℚ), (c.city : ℚ), pps]

/-- `input_df.columns` in the order of lines 100-110. -/
def featureNames : List String :=
  ["Type", "Bedrooms", "Bathrooms", "Area", "Furnished", "Level",
   "Delivery_Term", "City", "Price_per_sqm"]

/-- Floor of a rational (numerator floor-divided by the denominator). -/
def ratFloor (q : ℚ) : Int := Int.fdiv q.num q.den

/-- Round a rational to the nearest integer, ties to even (the rounding of
Python float formatting). -/
def roundHalfEven (q : ℚ) : Int :=
  if q - ratFloor q < 1 / 2 then ratFloor q
  else if q - ratFloor q > 1 / 2 then ratFloor q + 1
  else if ratFloor q % 2 = 0 then ratFloor q else ratFloor q + 1

/-- Left-pad a fractional part to two digits. -/
def twoDigits (n : Nat) : String :=
  (if n < 10 then "0" else "") ++ toString n

/-- Python's "{x:.2f}" on a rational: two-decimal fixed-point formatting. -/
def fmt2 (q : ℚ) : String :=
  (if roundHalfEven (q * 100) < 0 then "-" else "") ++
    toString ((roundHalfEven (q * 100)).natAbs / 100) ++ "." ++
    twoDigits ((roundHalfEven (q * 100)).natAbs % 100)

/-- Rendering of a raw row value inside the text summary (`iloc[0]`
upcasts the mixed row to floats, so integral values print with a trailing
".0"; the full shortest-roundtrip float repr is not modelled further, and
no claim depends on it). -/
def ratStr (q : ℚ) : String :=
  if q.den = 1 then toString q.num ++ ".0"
  else toString q.num ++ "/" ++ toString q.den

/-- One line of the loop at lines 149-151. -/
def featureLine (name : String) (s : ℚ) (v : ℚ) : String :=
  "- " ++ name ++ ": Value = " ++ ratStr v ++ ", " ++
    (if s > 0 then "increased" else "decreased") ++
    " price by " ++ fmt2 |s| ++ " units.\n"

/-- Lines 148-151: the textual description, built from
`zip(input_df.columns, shap_values[0], input_df.iloc[0])` (Python `zip`
truncates to the shortest list, as `List.zip` does). -/
def describeFactors (cols : List String) (sv : List ℚ) (row : List ℚ) : String :=
  "Factors influencing the predicted price:\n" ++
    String.join ((cols.zip (sv.zip row)).map fun p => featureLine p.1 p.2.1 p.2.2)

/-- Lines 49-158: the `try:` body of the endpoint.  `uid` is the
`uuid.uuid4()` string of line 142. -/
def predictBody (env : Env) (uid : String) (i : RealEstateInput) : Except Exc Response := do
  validateNumeric i
  let cs ← encodeInputs env i
  let pps ← computePps env i cs.city
  let row := buildRow i cs pps
  if env.model.predictRow row < 0 then
    .error (.http 500 "Predicted price is negative, which is invalid")
  else
    pure { predicted_price := env.model.predictRow row
         , image_url := "/static/shap_explanation_" ++ uid ++ ".jpeg"
         , factors_description := describeFactors featureNames (env.model.shapRow row) row }

/-- Lines 159-162: the exception dispatch at the boundary.  A `ValueError`
becomes a 400 "Input error: ..."; every other exception — including the
`HTTPException`s raised inside the body, which `except Exception` catches —
becomes a 500 "Prediction failed: str(e)". -/
def wrapExc (r : Except Exc Response) : Except (Nat × String) Response :=
  match r with
  | .ok resp => .ok resp
  | .error (.valueError m) => .error (400, "Input error: " ++ m)
  | .error e => .error (500, "Prediction failed: " ++ excStr e)

/-- The `/predict` endpoint: the body wrapped in the dispatch. -/
def predict (env : Env) (uid : String) (i : RealEstateInput) : Except (Nat × String) Response :=
  wrapExc (predictBody env uid i)

/-! Concrete instances used by witnesses and counterexamples. -/

/-- A concrete model: the prediction is the sum of the row, each feature's
attribution is its own value, the baseline is 0. -/
def demoModel : Model where
  predictRow := fun row => row.sum
  shapRow := fun row => row
  expectedValue := 0
  shap_local_accuracy := fun row => by simp
  shap_length := fun _ => rfl

/-- A concrete model that always predicts -1 (for the negative-prediction
branch). -/
def negModel : Model where
  predictRow := fun _ => -1
  shapRow := fun row => List.replicate row.length 0
  expectedValue := -1
  shap_local_accuracy := fun row => by simp
  shap_length := fun row => by simp

/-- A concrete encoder table. -/
def demoEncoders : List (String × List String) :=
  [("City", ["Cairo", "Giza"]), ("Type", ["Apartment", "Duplex"]),
   ("Furnished", ["No", "Yes"]), ("Delivery_Term", ["Finished", "Ready"])]

/-- A concrete reference dataset: two finite Cairo rows. -/
def demoRecords : List Record :=
  [{ city := 0, price_per_sqm := some 100 }, { city := 0, price_per_sqm := some 200 }]

/-- The environment for the happy path. -/
def demoEnv : Env :=
  { label_encoders := demoEncoders, df_cleaned := demoRecords, model := demoModel }

/-- Same data with the always-negative model. -/
def negEnv : Env :=
  { label_encoders := demoEncoders, df_cleaned := demoRecords, model := negModel }

/-- Cairo rows mixing one finite and one NaN `Price_per_sqm`. -/
def mixedEnv : Env :=
  { label_encoders := demoEncoders
  , df_cleaned := [{ city := 0, price_per_sqm := some 5 }, { city := 0, price_per_sqm := none }]
  , model := demoModel }

/-- Cairo's only row is NaN; Giza has finite rows for the global median. -/
def nanEnv : Env :=
  { label_encoders := demoEncoders
  , df_cleaned := [{ city := 0, price_per_sqm := none }, { city := 1, price_per_sqm := some 4 },
                   { city := 1, price_per_sqm := some 10 }]
  , model := demoModel }

/-- Every `Price_per_sqm` in the dataset is NaN. -/
def corruptEnv : Env :=
  { label_encoders := demoEncoders
  , df_cleaned := [{ city := 0, price_per_sqm := none }]
  , model := demoModel }

/-- The spec's end-to-end example request (§8), adjusted to the demo
encoder table. -/
def demoInput : RealEstateInput :=
  { city := "Cairo", property_type := "Apartment", furnished := "Yes",
    delivery_term := "Ready", bedrooms := 3, bathrooms := 2, area := 150, level := 4 }

/-- The codes the demo encoder table assigns to `demoInput`. -/
def demoCodes : Codes := { city := 0, type := 0, furnished := 1, delivery_term := 1 }

/-- The response of the happy path, extracted from the pipeline. -/
def demoResp : Response :=
  (predict demoEnv "u" demoInput).toOption.getD
    { predicted_price := 0, image_url := "", factors_description := "" }

/-- Follows the words of claim C3, not the source: the arithmetic mean of
`Price_per_sqm` over exactly the given records, where a NaN entry makes
the sum — hence the mean — NaN. -/
def specArithMean (xs : List PFloat) : PFloat :=
  if xs.isEmpty then none
  else if xs.any fun x => x.isNone then none
  else some ((xs.filterMap id).sum / (xs.length : ℚ))

/-! Helper lemmas shared by the claim theorems.  Batteries marks the
rational field operations irreducible; concrete evaluation by `decide`
needs them reducible again. -/

unseal Rat.mul Rat.add Rat.inv Rat.sub

instance {ε α : Type} [DecidableEq ε] [DecidableEq α] : DecidableEq (Except ε α) := fun a b =>
  match a, b with
  | .ok x, .ok y =>
    if h : x = y then isTrue (congrArg Except.ok h)
    else isFalse fun hc => h (Except.ok.inj hc)
  | .error x, .error y =>
    if h : x = y then isTrue (congrArg Except.error h)
    else isFalse fun hc => h (Except.error.inj hc)
  | .ok _, .error _ => isFalse fun hc => Except.noConfusion hc
  | .error _, .ok _ => isFalse fun hc => Except.noConfusion hc

theorem exc_bind_ok {α β : Type} (a : α) (f : α → Except Exc β) :
    (Except.ok a : Except Exc α) >>= f = f a := rfl

theorem exc_bind_err {α β : Type} (e : Exc) (f : α → Except Exc β) :
    (Except.error e : Except Exc α) >>= f = .error e := rfl

/-- Once validation, encoding and the derived feature succeed, the body is
the negative-prediction check on the assembled row followed by the
response. -/
theorem predictBody_reach (env : Env) (uid : String) (i : RealEstateInput) (cs : Codes) (pps : ℚ)
    (hv : validateNumeric i = .ok ())
    (he : encodeInputs env i = .ok cs)
    (hp : computePps env i cs.city = .ok pps) :
    predictBody env uid i =
      if env.model.predictRow (buildRow i cs pps) < 0 then
        .error (.http 500 "Predicted price is negative, which is invalid")
      else
        .ok { predicted_price := env.model.predictRow (buildRow i cs pps)
            , image_url := "/static/shap_explanation_" ++ uid ++ ".jpeg"
            , factors_description :=
                describeFactors featureNames (env.model.shapRow (buildRow i cs pps))
                  (buildRow i cs pps) } := by
  unfold predictBody
  rw [hv, exc_bind_ok, he, exc_bind_ok, hp, exc_bind_ok]
  rfl

/-- A successful call pins down the whole response record and the
non-negativity of the model output. -/
theorem predict_ok_eq (env : Env) (uid : String) (i : RealEstateInput) (cs : Codes) (pps : ℚ)
    (hv : validateNumeric i = .ok ())
    (he : encodeInputs env i = .ok cs)
    (hp : computePps env i cs.city = .ok pps)
    (resp : Response) (hok : predict env uid i = .ok resp) :
    resp = { predicted_price := env.model.predictRow (buildRow i cs pps)
           , image_url := "/static/shap_explanation_" ++ uid ++ ".jpeg"
           , factors_description :=
               describeFactors featureNames (env.model.shapRow (buildRow i cs pps))
                 (buildRow i cs pps) } ∧
    ¬ env.model.predictRow (buildRow i cs pps) < 0 := by
  unfold predict at hok
  rw [predictBody_reach env uid i cs pps hv he hp] at hok
  by_cases hneg : env.model.predictRow (buildRow i cs pps) < 0
  · rw [if_pos hneg] at hok
    simp [wrapExc] at hok
  · rw [if_neg hneg] at hok
    simp only [wrapExc] at hok
    exact ⟨(Except.ok.injEq _ _ ▸ hok).symm, hneg⟩

/-- Claim C1 (code bug): a request with negative bedrooms is answered, but
with a SERVER error — the `HTTPException(400, "Bedrooms must be
non-negative")` raised by the validator (line 52) is caught by the blanket
`except Exception` (line 161) and re-raised as status 500, contradicting
the claim's (and line 52's own) client-error classification.  The model is
still never invoked: the error is produced before prediction. -/
theorem C1_invalid_numeric_surfaces_as_500 :
    predict demoEnv "u" { demoInput with bedrooms := -1 } =
      .error (500, "Prediction failed: 400: Bedrooms must be non-negative") := by
  decide

/-- Claim C2 (code bug): a categorical value outside the field's
`classes_` produces a message that does enumerate exactly that field's
valid options, but the surfaced response is a SERVER error (500), not a
client error: the `HTTPException(400, ...)` of lines 73-76 is caught by
the blanket `except Exception` (line 161) and re-raised as 500. -/
theorem C2_unknown_category_surfaces_as_500 :
    predict demoEnv "u" { demoInput with property_type := "Castle" } =
      .error (500, "Prediction failed: 400: Invalid Type: 'Castle'. Valid options: Apartment, Duplex") := by
  decide

/-- Claim C6 (code bug): a city code with no reference records produces a
message naming the decoded city and listing the encoder-derived city list,
but the surfaced response is a SERVER error (500), not a client error: the
`HTTPException(400, ...)` of lines 84-87 is caught by the blanket `except
Exception` (line 161) and re-raised as 500. -/
theorem C6_unmatched_city_surfaces_as_500 :
    predict demoEnv "u" { demoInput with city := "Giza" } =
      .error (500, "Prediction failed: 400: No data for city code 1 (decoded: Giza). Valid cities: Cairo, Giza") := by
  decide

/-- Claim C3 counterexample: in `mixedEnv` the records matching city code
0 are one finite row (5) and one NaN row, so they contain a finite
`Price_per_sqm`; the derived feature is 5 (pandas `mean` skips the NaN),
while the arithmetic mean over exactly the matched records is NaN — the
derived feature does not equal it. -/
theorem C3_counterexample :
    ((mixedEnv.df_cleaned.filter fun r => r.city == 0).any fun r => r.price_per_sqm.isSome) = true ∧
    encodeInputs mixedEnv demoInput = .ok demoCodes ∧ demoCodes.city = 0 ∧
    computePps mixedEnv demoInput 0 = .ok 5 ∧
    specArithMean ((mixedEnv.df_cleaned.filter fun r => r.city == 0).map
      fun r => r.price_per_sqm) = none := by
  exact ⟨by decide, by decide, rfl, by decide, by decide⟩

/-- Claim C3 (amended): for every city code whose matched records have at
least one finite `Price_per_sqm` (equivalently, whose pandas skip-NaN mean
is a value `m`), the derived feature equals that mean — the arithmetic
mean over the matched records with finite `Price_per_sqm`, NaN entries
skipped. -/
theorem C3_skipna_mean (env : Env) (i : RealEstateInput) (code : Int) (m : ℚ)
    (h : pandasMean ((env.df_cleaned.filter fun r => r.city == code).map
      fun r => r.price_per_sqm) = some m) :
    computePps env i code = .ok m := by
  have hne : (env.df_cleaned.filter fun r => r.city == code).isEmpty = false := by
    cases hc : env.df_cleaned.filter fun r => r.city == code with
    | nil => rw [hc] at h; simp [pandasMean] at h
    | cons a l => rfl
  simp [computePps, hne, h]

/-- Witness for `C3_skipna_mean` at the demo environment: Cairo's rows are
100 and 200, mean 150. -/
theorem C3_skipna_mean_witness :
    pandasMean ((demoEnv.df_cleaned.filter fun r => r.city == 0).map
      fun r => r.price_per_sqm) = some 150 ∧
    computePps demoEnv demoInput 0 = .ok 150 :=
  ⟨by decide, C3_skipna_mean demoEnv demoInput 0 150 (by decide)⟩

/-- Claim C4: whenever a request passes validation, encoding and the
derived feature, a negative model output makes the call fail as a server
error (status 500), and on every successful return the `predicted_price`
is the model's unmodified, non-negative output — never clamped, never
negative. -/
theorem C4_negative_prediction_and_passthrough (env : Env) (uid : String) (i : RealEstateInput)
    (cs : Codes) (pps : ℚ)
    (hv : validateNumeric i = .ok ())
    (he : encodeInputs env i = .ok cs)
    (hp : computePps env i cs.city = .ok pps) :
    (env.model.predictRow (buildRow i cs pps) < 0 →
      predict env uid i =
        .error (500, "Prediction failed: 500: Predicted price is negative, which is invalid")) ∧
    (∀ resp : Response, predict env uid i = .ok resp →
      resp.predicted_price = env.model.predictRow (buildRow i cs pps) ∧
      0 ≤ resp.predicted_price) := by
  constructor
  · intro hneg
    unfold predict
    rw [predictBody_reach env uid i cs pps hv he hp, if_pos hneg]
    rfl
  · intro resp hok
    obtain ⟨hr, hnn⟩ := predict_ok_eq env uid i cs pps hv he hp resp hok
    rw [hr]
    exact ⟨rfl, le_of_not_lt hnn⟩

/-- Witness for `C4_negative_prediction_and_passthrough`: with the
always-negative model the call fails as a 500; with the demo model the
returned price is the model output and is non-negative. -/
theorem C4_witness :
    predict negEnv "u" demoInput =
      .error (500, "Prediction failed: 500: Predicted price is negative, which is invalid") ∧
    demoResp.predicted_price = demoEnv.model.predictRow (buildRow demoInput demoCodes 150) ∧
    0 ≤ demoResp.predicted_price :=
  ⟨(C4_negative_prediction_and_passthrough negEnv "u" demoInput demoCodes 150
      (by decide) (by decide) (by decide)).1 (by decide),
   (C4_negative_prediction_and_passthrough demoEnv "u" demoInput demoCodes 150
      (by decide) (by decide) (by decide)).2 demoResp (by decide)⟩

/-- Claim C5: when the records matching the city code are non-empty but
their (skip-NaN) mean is NaN, the derived feature falls back to the global
(skip-NaN) median of `Price_per_sqm` over the whole dataset; when that
median is itself NaN the call fails as a server error (status 500). -/
theorem C5_fallback_chain (env : Env) (uid : String) (i : RealEstateInput) (cs : Codes)
    (hv : validateNumeric i = .ok ())
    (he : encodeInputs env i = .ok cs)
    (hne : (env.df_cleaned.filter fun r => r.city == cs.city) ≠ [])
    (hmean : pandasMean ((env.df_cleaned.filter fun r => r.city == cs.city).map
      fun r => r.price_per_sqm) = none) :
    (∀ d : ℚ, pandasMedian (env.df_cleaned.map fun r => r.price_per_sqm) = some d →
      computePps env i cs.city = .ok d) ∧
    (pandasMedian (env.df_cleaned.map fun r => r.price_per_sqm) = none →
      predict env uid i = .error (500,
        "Prediction failed: 500: Cannot compute Price_per_sqm: invalid data in cleaned_data.csv")) := by
  have hE : (env.df_cleaned.filter fun r => r.city == cs.city).isEmpty = false := by
    cases hc : env.df_cleaned.filter fun r => r.city == cs.city with
    | nil => exact absurd hc hne
    | cons a l => rfl
  constructor
  · intro d hmed
    simp [computePps, hE, hmean, hmed]
  · intro hmed
    have hp : computePps env i cs.city =
        .error (.http 500 "Cannot compute Price_per_sqm: invalid data in cleaned_data.csv") := by
      simp [computePps, hE, hmean, hmed]
    unfold predict predictBody
    rw [hv, exc_bind_ok, he, exc_bind_ok, hp, exc_bind_err]
    rfl

/-- Witness for `C5_fallback_chain`: in `nanEnv` Cairo's only record is
NaN and the global median of the finite values 4 and 10 is 7, which the
derived feature takes; in `corruptEnv` every record is NaN and the call
fails as a 500. -/
theorem C5_witness :
    computePps nanEnv demoInput demoCodes.city = .ok 7 ∧
    predict corruptEnv "u" demoInput = .error (500,
      "Prediction failed: 500: Cannot compute Price_per_sqm: invalid data in cleaned_data.csv") :=
  ⟨(C5_fallback_chain nanEnv "u" demoInput demoCodes
      (by decide) (by decide) (by decide) (by decide)).1 7 (by decide),
   (C5_fallback_chain corruptEnv "u" demoInput demoCodes
      (by decide) (by decide) (by decide) (by decide)).2 (by decide)⟩

/-- Claim C7: every request that reaches prediction uses the single-row
feature vector [Type, Bedrooms, Bathrooms, Area, Furnished, Level,
Delivery_Term, City, Price_per_sqm], with the encoded integer codes in the
four categorical slots and the derived `Price_per_sqm` last, and on
success the very same vector fed the model's prediction and the
explainer's attribution. -/
theorem C7_column_order (env : Env) (uid : String) (i : RealEstateInput)
    (cs : Codes) (pps : ℚ)
    (hv : validateNumeric i = .ok ())
    (he : encodeInputs env i = .ok cs)
    (hp : computePps env i cs.city = .ok pps) :
    buildRow i cs pps = [(cs.type : ℚ), (i.bedrooms : ℚ), (i.bathrooms : ℚ), i.area,
      (cs.furnished : ℚ), (i.level : ℚ), (cs.delivery_term : ℚ), (cs.city : ℚ), pps] ∧
    featureNames = ["Type", "Bedrooms", "Bathrooms", "Area", "Furnished", "Level",
      "Delivery_Term", "City", "Price_per_sqm"] ∧
    (∀ resp : Response, predict env uid i = .ok resp →
      resp.predicted_price = env.model.predictRow (buildRow i cs pps) ∧
      resp.factors_description =
        describeFactors featureNames (env.model.shapRow (buildRow i cs pps))
          (buildRow i cs pps)) := by
  refine ⟨rfl, rfl, fun resp hok => ?_⟩
  obtain ⟨hr, -⟩ := predict_ok_eq env uid i cs pps hv he hp resp hok
  rw [hr]
  exact ⟨rfl, rfl⟩

/-- Witness for `C7_column_order` at the demo environment. -/
theorem C7_witness :
    buildRow demoInput demoCodes 150 = [(demoCodes.type : ℚ), (demoInput.bedrooms : ℚ),
      (demoInput.bathrooms : ℚ), demoInput.area, (demoCodes.furnished : ℚ),
      (demoInput.level : ℚ), (demoCodes.delivery_term : ℚ), (demoCodes.city : ℚ), 150] ∧
    demoResp.predicted_price = demoEnv.model.predictRow (buildRow demoInput demoCodes 150) ∧
    demoResp.factors_description =
      describeFactors featureNames (demoEnv.model.shapRow (buildRow demoInput demoCodes 150))
        (buildRow demoInput demoCodes 150) := by
  have h := C7_column_order demoEnv "u" demoInput demoCodes 150 (by decide) (by decide) (by decide)
  exact ⟨h.1, h.2.2 demoResp (by decide)⟩

/-- Claim C8: on every successful call the `factors_description` is the
header line followed by exactly 9 feature lines, one per feature-vector
column in column order, each reporting the raw value, a direction word
("increased" when the attribution is positive, otherwise "decreased"),
and the attribution's magnitude formatted to two decimals. -/
theorem C8_description_shape (env : Env) (uid : String) (i : RealEstateInput)
    (cs : Codes) (pps : ℚ)
    (hv : validateNumeric i = .ok ())
    (he : encodeInputs env i = .ok cs)
    (hp : computePps env i cs.city = .ok pps) :
    ∀ resp : Response, predict env uid i = .ok resp →
      resp.factors_description =
        "Factors influencing the predicted price:\n" ++
          String.join ((featureNames.zip ((env.model.shapRow (buildRow i cs pps)).zip
            (buildRow i cs pps))).map fun p => featureLine p.1 p.2.1 p.2.2) ∧
      ((featureNames.zip ((env.model.shapRow (buildRow i cs pps)).zip
        (buildRow i cs pps))).map fun p => featureLine p.1 p.2.1 p.2.2).length = 9 ∧
      (∀ (n : String) (s v : ℚ), featureLine n s v =
        "- " ++ n ++ ": Value = " ++ ratStr v ++ ", " ++
          (if s > 0 then "increased" else "decreased") ++
          " price by " ++ fmt2 |s| ++ " units.\n") := by
  intro resp hok
  obtain ⟨hr, -⟩ := predict_ok_eq env uid i cs pps hv he hp resp hok
  have hlen : (env.model.shapRow (buildRow i cs pps)).length = 9 := by
    rw [env.model.shap_length]; rfl
  have hrow : (buildRow i cs pps).length = 9 := rfl
  refine ⟨by rw [hr]; rfl, ?_, fun n s v => rfl⟩
  simp [List.length_map, List.length_zip, hlen, hrow, featureNames]

/-- Witness for `C8_description_shape` at the demo environment. -/
theorem C8_witness :
    demoResp.factors_description =
      "Factors influencing the predicted price:\n" ++
        String.join ((featureNames.zip ((demoEnv.model.shapRow (buildRow demoInput demoCodes 150)).zip
          (buildRow demoInput demoCodes 150))).map fun p => featureLine p.1 p.2.1 p.2.2) ∧
    ((featureNames.zip ((demoEnv.model.shapRow (buildRow demoInput demoCodes 150)).zip
      (buildRow demoInput demoCodes 150))).map fun p => featureLine p.1 p.2.1 p.2.2).length = 9 :=
  ⟨(C8_description_shape demoEnv "u" demoInput demoCodes 150 (by decide) (by decide) (by decide)
      demoResp (by decide)).1,
   (C8_description_shape demoEnv "u" demoInput demoCodes 150 (by decide) (by decide) (by decide)
      demoResp (by decide)).2.1⟩

/-- Claim C9: on every successful call the explainer's per-feature
attribution values, summed with the model's baseline (expected) value,
equal the predicted price (exactly, in the rational model). -/
theorem C9_additivity (env : Env) (uid : String) (i : RealEstateInput)
    (cs : Codes) (pps : ℚ)
    (hv : validateNumeric i = .ok ())
    (he : encodeInputs env i = .ok cs)
    (hp : computePps env i cs.city = .ok pps) :
    ∀ resp : Response, predict env uid i = .ok resp →
      env.model.expectedValue + (env.model.shapRow (buildRow i cs pps)).sum =
        resp.predicted_price := by
  intro resp hok
  obtain ⟨hr, -⟩ := predict_ok_eq env uid i cs pps hv he hp resp hok
  rw [hr]
  exact env.model.shap_local_accuracy (buildRow i cs pps)

/-- Witness for `C9_additivity` at the demo environment. -/
theorem C9_witness :
    demoEnv.model.expectedValue + (demoEnv.model.shapRow (buildRow demoInput demoCodes 150)).sum =
      demoResp.predicted_price :=
  C9_additivity demoEnv "u" demoInput demoCodes 150 (by decide) (by decide) (by decide)
    demoResp (by decide)

/-- Claim C10: the endpoint is the body wrapped in the dispatch of lines
159-162, which surfaces a `ValueError` as a 400 whose message is "Input
error: " followed by the original message, and every other exception —
`HTTPException`s raised in the body included — as a 500 whose message is
"Prediction failed: " followed by the original message `str(e)`. -/
theorem C10_dispatch (env : Env) (uid : String) (i : RealEstateInput) :
    predict env uid i = wrapExc (predictBody env uid i) ∧
    (∀ m : String, wrapExc (.error (.valueError m)) = .error (400, "Input error: " ++ m)) ∧
    (∀ e : Exc, (∀ m : String, e ≠ .valueError m) →
      wrapExc (.error e) = .error (500, "Prediction failed: " ++ excStr e)) := by
  refine ⟨rfl, fun m => rfl, fun e hne => ?_⟩
  cases e with
  | http s d => rfl
  | valueError m => exact absurd rfl (hne m)
  | other m => rfl

/-- Witness for `C10_dispatch`: a `ValueError` surfaces as a 400 with the
"Input error: " message, an `HTTPException` (any non-`ValueError`)
surfaces as a 500 with the "Prediction failed: " message. -/
theorem C10_witness :
    wrapExc (.error (.valueError "boom")) = .error (400, "Input error: boom") ∧
    wrapExc (.error (.http 400 "Bedrooms must be non-negative")) =
      .error (500, "Prediction failed: 400: Bedrooms must be non-negative") :=
  ⟨(C10_dispatch demoEnv "u" demoInput).2.1 "boom",
   (C10_dispatch demoEnv "u" demoInput).2.2 (.http 400 "Bedrooms must be non-negative")
     (fun _ h => Exc.noConfusion h)⟩

end GhMl
